import Mathlib

/-
Verification development for the session-token-authenticated API client of
low-stock-alert-react (src/services/api.js and its two sibling variants).

Shallow embedding conventions:
* Navigation parameters, the configured application key, the external
  createApp constructor, the external token-exchange primitive and btoa are
  environment inputs collected in the Env structure.  createApp and the
  exchange are external collaborators, so their behaviour is an arbitrary
  function of the environment (returning a value or throwing, modelled with
  Except).
* JavaScript exceptions are modelled with Except JsError; JS string
  truthiness (null/undefined/"" are falsy) is modelled by jsTruthy on
  Option String.
* The mutable static field AppBridgeService.instance is threaded explicitly:
  each operation takes the current cached value and returns the new one.
* The axios request interceptor is modelled twice:
  - requestInterceptor / requestInterceptor1 take the awaited result of
    AppBridgeService.getSessionToken() as an explicit parameter (tokRes), so
    claims quantifying over the exchange outcome can be stated;
  - ApiService.sendRequest composes the main-file interceptor body with the
    concrete main-file AppBridgeService chain for end-to-end claims.
-/

/-! ## JavaScript string primitives -/

/-- Does the second list occur at the head of the first pattern argument?
`strStarts pat s` is true iff `pat` is an initial segment of `s`. -/
def strStarts : List Char → List Char → Bool
  | [], _ => true
  | _ :: _, [] => false
  | p :: ps, c :: cs => p == c && strStarts ps cs

/-- `containsSub pat s` is true iff `pat` occurs contiguously somewhere in `s`. -/
def containsSub (pat : List Char) : List Char → Bool
  | [] => strStarts pat []
  | c :: cs => strStarts pat (c :: cs) || containsSub pat cs

/-- JavaScript `s.includes(pat)`: substring containment anywhere in `s`. -/
def jsIncludes (s pat : String) : Bool :=
  containsSub pat.data s.data

/-- JavaScript `s.endsWith(pat)`. -/
def strEnds (s pat : String) : Bool :=
  strStarts pat.data.reverse s.data.reverse

/-- JS truthiness of a string value: `""` is falsy, everything else truthy. -/
def jsTruthyStr (s : String) : Bool := !s.data.isEmpty

/-- JS truthiness of a nullable string: null/undefined and `""` are falsy. -/
def jsTruthy : Option String → Bool
  | none => false
  | some s => jsTruthyStr s

/-! ## Data model -/

/-- A thrown JavaScript value, as far as the pipeline distinguishes them. -/
inductive JsError where
  | typeError (msg : String)
  | error (msg : String)
deriving DecidableEq

/-- The opaque handle returned by the external `createApp({apiKey, host,
forceRedirect})` constructor (spec section 6). -/
structure BridgeHandle where
  apiKey : String
  host : Option String
  forceRedirect : Bool
deriving DecidableEq

/-- The two navigation query parameters read by ShopifyAppConfig:
`params.get` returns null (`none`) when the parameter is absent. -/
structure Nav where
  shop : Option String
  host : Option String
deriving DecidableEq

/-- The environment of one page load: navigation parameters, the build-time
application key, the production/development flags of EnvironmentConfig, and
the external collaborators (createApp, the token exchange, btoa). -/
structure Env where
  nav : Nav
  apiKey : Option String
  prod : Bool
  dev : Bool
  createApp : String → Option String → Except JsError BridgeHandle
  exchange : BridgeHandle → Except JsError String
  btoa : String → String

/-- An axios request config as the interceptors see it: method, url, the
headers mapping, and an optional JSON body. -/
structure Config where
  method : String
  url : String
  headers : List (String × String)
  body : Option String
deriving DecidableEq

/-- JS object assignment `headers[k] = v`: replace the binding if the key is
present, append it otherwise. -/
def setHeader : List (String × String) → String → String → List (String × String)
  | [], k, v => [(k, v)]
  | (k1, v1) :: t, k, v =>
      if k1 = k then (k, v) :: t else (k1, v1) :: setHeader t k v

/-- Lookup of a header key. -/
def getHeader : List (String × String) → String → Option String
  | [], _ => none
  | (k1, v1) :: t, k => if k1 = k then some v1 else getHeader t k

/-- Outcome of the outbound interception stage: the produced config (or the
propagated error), together with whether the token exchange was awaited. -/
structure StageOut where
  result : Except JsError Config
  tokenAttempted : Bool

/-- The config carried by a successful stage outcome. -/
def stageConfig (s : StageOut) : Option Config :=
  match s.result with
  | Except.ok c => some c
  | Except.error _ => none

/-- The tenant header of a successful stage outcome. -/
def tenantOf (s : StageOut) : Option String :=
  (stageConfig s).bind fun c => getHeader c.headers "X-Shopify-Shop-Domain"

/-- The authorization header of a successful stage outcome. -/
def authOf (s : StageOut) : Option String :=
  (stageConfig s).bind fun c => getHeader c.headers "Authorization"

/-! ## Context Resolver (main file src/services/api.js, ShopifyAppConfig) -/

/-- Main file line 25-28: `params.get('shop')`, no validation. -/
def ShopifyAppConfig.getShopDomain (env : Env) : Option String :=
  env.nav.shop

/-- Main file line 30-33: `params.get('host')`, no validation. -/
def ShopifyAppConfig.getHost (env : Env) : Option String :=
  env.nav.host

/-! ## Context Resolver (variant part_001, validated) -/

/-- part_001 lines 53-69: the shop parameter is returned when it ends in
`.myshopify.com`, or in development mode when merely truthy; otherwise null. -/
def ShopifyAppConfig.getShopDomain1 (env : Env) : Option String :=
  match env.nav.shop with
  | none => none
  | some shop =>
      if jsTruthyStr shop && strEnds shop ".myshopify.com" then some shop
      else if env.dev && jsTruthyStr shop then some shop
      else none

/-- part_001 lines 71-91: the host parameter when truthy; in development a
host is generated with `btoa(shop + "/admin")` from a resolved shop;
otherwise null. -/
def ShopifyAppConfig.getHost1 (env : Env) : Option String :=
  match env.nav.host with
  | some h =>
      if jsTruthyStr h then some h
      else if env.dev then
        match ShopifyAppConfig.getShopDomain1 env with
        | some shop => some (env.btoa (shop ++ "/admin"))
        | none => none
      else none
  | none =>
      if env.dev then
        match ShopifyAppConfig.getShopDomain1 env with
        | some shop => some (env.btoa (shop ++ "/admin"))
        | none => none
      else none

/-! ## Token Provider (main file src/services/api.js, AppBridgeService) -/

/-- Main file lines 55-85.  The body is
```
if (this.instance) return this.instance;
const { shop, host, isEmbedded } = ShopifyAppConfig.logContext();
...
```
`ShopifyAppConfig` defines only `getShopDomain`, `getHost` and
`validateAppContext`; it has no `logContext` member, so when no handle is
cached the call on line 58 throws
`TypeError: ShopifyAppConfig.logContext is not a function` before any of the
checks or the try/catch on lines 59-84 can run; those lines are unreachable
and `this.instance` is never assigned.  The state argument is the current
value of the static field `AppBridgeService.instance`; the result pairs the
returned-or-thrown value with the (unchanged) field. -/
def AppBridgeService.getInstance (_env : Env) (st : Option BridgeHandle) :
    Except JsError (Option BridgeHandle) × Option BridgeHandle :=
  match st with
  | some app => (Except.ok (some app), some app)
  | none =>
      (Except.error (JsError.typeError "ShopifyAppConfig.logContext is not a function"), none)

/-- Main file lines 87-100: try getInstance; throw `App Bridge not available`
when it is null; otherwise await the external exchange; the catch clause logs
and rethrows the original error unchanged. -/
def AppBridgeService.getSessionToken (env : Env) (st : Option BridgeHandle) :
    Except JsError String × Option BridgeHandle :=
  match AppBridgeService.getInstance env st with
  | (Except.error e, st2) => (Except.error e, st2)
  | (Except.ok none, st2) => (Except.error (JsError.error "App Bridge not available"), st2)
  | (Except.ok (some app), st2) =>
      match env.exchange app with
      | Except.ok t => (Except.ok t, st2)
      | Except.error e => (Except.error e, st2)

/-! ## Token Provider (variant part_001, AppBridgeService) -/

/-- part_001 lines 114-149: when no handle is cached, resolve the validated
context; return null on missing api key, missing shop, or missing host in
production; otherwise attempt `createApp`, caching the handle on success and
setting the field back to null when the constructor throws.  The third
component counts how many times `createApp` was invoked during this call, so
that construction attempts can be counted across call sequences. -/
def AppBridgeService.getInstance1 (env : Env) (st : Option BridgeHandle) :
    Option BridgeHandle × Option BridgeHandle × Nat :=
  match st with
  | some app => (some app, some app, 0)
  | none =>
      if !(jsTruthy env.apiKey) then (none, none, 0)
      else if !(jsTruthy (ShopifyAppConfig.getShopDomain1 env)) then (none, none, 0)
      else if !(jsTruthy (ShopifyAppConfig.getHost1 env)) && env.prod then (none, none, 0)
      else
        match env.createApp (env.apiKey.getD "") (ShopifyAppConfig.getHost1 env) with
        | Except.ok app => (some app, some app, 1)
        | Except.error _ => (none, none, 1)

/-! ## HTTP Client Pipeline, outbound stage -/

/-- Main file lines 123-126 (and part_001 lines 193-196): set the tenant
header when the resolved shop is truthy. -/
def withTenant (shop : Option String) (cfg : Config) : Config :=
  if jsTruthy shop then
    { cfg with headers := setHeader cfg.headers "X-Shopify-Shop-Domain" (shop.getD "") }
  else cfg

/-- Main file request interceptor, lines 120-141, with the awaited result of
`AppBridgeService.getSessionToken()` supplied as the parameter `tokRes`:
always set the tenant header when the shop is truthy; when the shop is truthy
and the url does not contain the substring `/public`, await the token and set
the bearer authorization header, catching a failed exchange and proceeding
without the header. -/
def requestInterceptor (shop : Option String) (tokRes : Except JsError String)
    (cfg : Config) : StageOut :=
  let cfg1 := withTenant shop cfg
  if jsTruthy shop && !(jsIncludes cfg.url "/public") then
    match tokRes with
    | Except.ok t =>
        { result := Except.ok
            { cfg1 with headers := setHeader cfg1.headers "Authorization" ("Bearer " ++ t) },
          tokenAttempted := true }
    | Except.error _ => { result := Except.ok cfg1, tokenAttempted := true }
  else { result := Except.ok cfg1, tokenAttempted := false }

/-- part_001 lines 263-273: a request requires authentication iff its url
contains none of the public-endpoint substrings `/health`, `/public`. -/
def requiresAuthentication (cfg : Config) : Bool :=
  !(jsIncludes cfg.url "/health" || jsIncludes cfg.url "/public")

/-- part_001 request interceptor, lines 188-224, with the awaited token
result supplied as `tokRes`: set the tenant header from the validated shop
when truthy; for requests that require authentication, set the bearer header
on success, and on a failed exchange rethrow the token error in production
(the outer catch rethrows it unchanged) or continue without the header in
development. -/
def requestInterceptor1 (env : Env) (tokRes : Except JsError String)
    (cfg : Config) : StageOut :=
  let cfg1 := withTenant (ShopifyAppConfig.getShopDomain1 env) cfg
  if requiresAuthentication cfg then
    match tokRes with
    | Except.ok t =>
        { result := Except.ok
            { cfg1 with headers := setHeader cfg1.headers "Authorization" ("Bearer " ++ t) },
          tokenAttempted := true }
    | Except.error e =>
        if env.prod then { result := Except.error e, tokenAttempted := true }
        else { result := Except.ok cfg1, tokenAttempted := true }
  else { result := Except.ok cfg1, tokenAttempted := false }

/-- End-to-end outbound stage of the main file: the interceptor body of
lines 120-141 composed with the concrete main-file
`AppBridgeService.getSessionToken` chain, threading the cached instance. -/
def ApiService.sendRequest (env : Env) (st : Option BridgeHandle) (cfg : Config) :
    Except JsError Config × Option BridgeHandle :=
  let shop := ShopifyAppConfig.getShopDomain env
  let cfg1 := withTenant shop cfg
  if jsTruthy shop && !(jsIncludes cfg.url "/public") then
    match AppBridgeService.getSessionToken env st with
    | (Except.ok t, st2) =>
        (Except.ok { cfg1 with headers := setHeader cfg1.headers "Authorization" ("Bearer " ++ t) },
         st2)
    | (Except.error _, st2) => (Except.ok cfg1, st2)
  else (Except.ok cfg1, st)

/-! ## HTTP Client Pipeline, inbound stage (main file lines 149-175) -/

/-- A backend HTTP response, as far as the inbound stage inspects it. -/
structure HttpResponse where
  status : Nat
  data : String
deriving DecidableEq

/-- An axios transmission error: an optional received response, whether a
request object exists, the message, and the url of the failed config. -/
structure AxiosError where
  response : Option HttpResponse
  request : Bool
  message : String
  urlOf : Option String
deriving DecidableEq

/-- Main file response error interceptor, lines 154-174: classify by whether
a response was received, a request was sent without a response, or the
request could not be constructed; each branch logs and then returns
`Promise.reject(error)` with the original error object. -/
def responseErrorStage (e : AxiosError) : Except AxiosError HttpResponse :=
  if e.response.isSome then Except.error e
  else if e.request then Except.error e
  else Except.error e

/-- Main file response success interceptor, lines 150-153: log and pass the
response through unchanged. -/
def responseSuccessStage (r : HttpResponse) : HttpResponse := r

/-! ## API Surface (main file lines 178-210) -/

def ApiService.getStore : Config :=
  { method := "get", url := "/store", headers := [], body := none }

def ApiService.saveSetup (data : String) : Config :=
  { method := "post", url := "/setup", headers := [], body := some data }

def ApiService.getSettings : Config :=
  { method := "get", url := "/settings", headers := [], body := none }

def ApiService.updateSettings (data : String) : Config :=
  { method := "put", url := "/settings", headers := [], body := some data }

def ApiService.getLowStock : Config :=
  { method := "get", url := "/dashboard/low-stock", headers := [], body := none }

def ApiService.getStats : Config :=
  { method := "get", url := "/dashboard/stats", headers := [], body := none }

/-- Main file lines 203-205: the days argument is interpolated into the url
with no validation; it defaults to 30. -/
def ApiService.getTrend (days : Int := 30) : Config :=
  { method := "get", url := "/dashboard/trend?days=" ++ toString days,
    headers := [], body := none }

def ApiService.healthCheck : Config :=
  { method := "get", url := "/health", headers := [], body := none }

/-! ## Concrete environments and inputs used by closed theorems -/

/-- Navigation `?shop=acme.myshopify.com&host=abc123`, application key
configured, external exchange returning "tok_xyz" on every handle. -/
def env0 : Env :=
  { nav := { shop := some "acme.myshopify.com", host := some "abc123" }
    apiKey := some "app_key"
    prod := true
    dev := false
    createApp := fun k h => Except.ok { apiKey := k, host := h, forceRedirect := true }
    exchange := fun _ => Except.ok "tok_xyz"
    btoa := fun s => s }

/-- Fully configured environment whose external `createApp` constructor
always throws. -/
def env3 : Env :=
  { nav := { shop := some "acme.myshopify.com", host := some "hostTok" }
    apiKey := some "app_key"
    prod := true
    dev := false
    createApp := fun _ _ => Except.error (JsError.error "createApp failed")
    exchange := fun _ => Except.error (JsError.error "no bridge")
    btoa := fun s => s }

/-- Development twin of env3. -/
def envDev : Env :=
  { env3 with prod := false, dev := true }

def handle0 : BridgeHandle :=
  { apiKey := "app_key", host := some "abc123", forceRedirect := true }

def errX : JsError := JsError.error "token exchange failed"

def cfgPublic : Config :=
  { method := "get", url := "/api/public/info", headers := [], body := none }

def cfgPublications : Config :=
  { method := "get", url := "/publications", headers := [], body := none }

def err404 : AxiosError :=
  { response := some { status := 404, data := "Not Found" }
    request := true
    message := "Request failed with status code 404"
    urlOf := some "/store" }

def cfgStoreSent : Config :=
  { method := "get", url := "/store",
    headers := [("X-Shopify-Shop-Domain", "acme.myshopify.com")], body := none }

def cfgHealthSent : Config :=
  { method := "get", url := "/health",
    headers := [("X-Shopify-Shop-Domain", "acme.myshopify.com"), ("Authorization", "Bearer tok_xyz")],
    body := none }

/-! ## Header-map lemmas -/

/-- Looking a key up after a JS object assignment: the assigned key reads the
new value, every other key is unchanged. -/
theorem getHeader_setHeader (hs : List (String × String)) (k v k2 : String) :
    getHeader (setHeader hs k v) k2 = if k = k2 then some v else getHeader hs k2 := by
  induction hs with
  | nil => by_cases h : k = k2 <;> simp [setHeader, getHeader, h]
  | cons p t ih =>
      obtain ⟨k1, v1⟩ := p
      by_cases h1 : k1 = k
      · subst h1
        by_cases h : k1 = k2 <;> simp [setHeader, getHeader, h, ih]
      · by_cases h : k1 = k2
        · subst h
          have hk : ¬(k = k1) := fun hkk => h1 hkk.symm
          simp [setHeader, getHeader, h1, hk]
        · simp [setHeader, getHeader, h1, h, ih]

theorem withTenant_method (shop : Option String) (cfg : Config) :
    (withTenant shop cfg).method = cfg.method := by
  unfold withTenant; split <;> rfl

theorem withTenant_url (shop : Option String) (cfg : Config) :
    (withTenant shop cfg).url = cfg.url := by
  unfold withTenant; split <;> rfl

theorem withTenant_body (shop : Option String) (cfg : Config) :
    (withTenant shop cfg).body = cfg.body := by
  unfold withTenant; split <;> rfl

/-- Header lookup through the tenant-header step: the tenant key reads the
shop value when the shop is truthy, every other lookup is unchanged. -/
theorem getHeader_withTenant (shop : Option String) (cfg : Config) (k : String) :
    getHeader (withTenant shop cfg).headers k =
      if jsTruthy shop = true ∧ "X-Shopify-Shop-Domain" = k then shop
      else getHeader cfg.headers k := by
  rcases shop with _ | s
  · simp [withTenant, jsTruthy]
  · by_cases ht : jsTruthyStr s
    · by_cases hk : "X-Shopify-Shop-Domain" = k <;>
        simp [withTenant, jsTruthy, ht, hk, getHeader_setHeader, Option.getD]
    · simp [withTenant, jsTruthy, ht]

/-! ## Claim theorems -/

/-- C1: the spec requires that with navigation
`?shop=acme.myshopify.com&host=abc123`, the application key configured and
the token exchange returning "tok_xyz", GET /store is sent with headers
X-Shopify-Shop-Domain: acme.myshopify.com and Authorization: Bearer tok_xyz.
The code violates this: AppBridgeService.getInstance calls the non-existent
ShopifyAppConfig.logContext, so getSessionToken always throws, the request
interceptor catches the failure, and the request is transmitted with the
tenant header but with no Authorization header even though the external
exchange would return tok_xyz for every handle. -/
theorem c1_store_request_lacks_authorization :
    (ApiService.sendRequest env0 none ApiService.getStore).1 = Except.ok cfgStoreSent ∧
    getHeader cfgStoreSent.headers "X-Shopify-Shop-Domain" = some "acme.myshopify.com" ∧
    getHeader cfgStoreSent.headers "Authorization" = none ∧
    env0.nav.shop = some "acme.myshopify.com" ∧
    env0.nav.host = some "abc123" ∧
    jsTruthy env0.apiKey = true ∧
    jsIncludes ApiService.getStore.url "/public" = false ∧
    (∀ h : BridgeHandle, env0.exchange h = Except.ok "tok_xyz") :=
  ⟨rfl, rfl, rfl, rfl, rfl, rfl, rfl, fun _ => rfl⟩

/-- C2 counterexample: the claim states that /health never receives a bearer
Authorization header regardless of shop or exchange outcome.  In the main
pipeline the public-path guard only checks the substring "/public", so the
healthCheck request with a shop present and a succeeding exchange is sent
with Authorization: Bearer tok_xyz. -/
theorem c2_counterexample_health_request_authorized :
    (requestInterceptor (some "acme.myshopify.com") (Except.ok "tok_xyz")
        ApiService.healthCheck).result = Except.ok cfgHealthSent ∧
    getHeader cfgHealthSent.headers "Authorization" = some "Bearer tok_xyz" ∧
    (requestInterceptor (some "acme.myshopify.com") (Except.ok "tok_xyz")
        ApiService.healthCheck).tokenAttempted = true :=
  ⟨rfl, rfl, rfl⟩

/-- C2 amended: every request whose url contains the denylisted substring
"/public" is sent without a bearer Authorization header, regardless of the
shop and of the token-exchange outcome; in the main pipeline /health is not
denylisted, and only the part_001 variant additionally denylists "/health"
(second conjunct). -/
theorem c2_public_substring_never_authorized (shop : Option String) (env : Env)
    (tokRes : Except JsError String) (cfg : Config) :
    (jsIncludes cfg.url "/public" = true →
      ∃ c, (requestInterceptor shop tokRes cfg).result = Except.ok c ∧
        getHeader c.headers "Authorization" = getHeader cfg.headers "Authorization") ∧
    ((jsIncludes cfg.url "/health" || jsIncludes cfg.url "/public") = true →
      ∃ c, (requestInterceptor1 env tokRes cfg).result = Except.ok c ∧
        getHeader c.headers "Authorization" = getHeader cfg.headers "Authorization") := by
  constructor
  · intro hp
    refine ⟨withTenant shop cfg, ?_, ?_⟩
    · simp [requestInterceptor, hp]
    · simp [getHeader_withTenant]
  · intro hp
    refine ⟨withTenant (ShopifyAppConfig.getShopDomain1 env) cfg, ?_, ?_⟩
    · simp [requestInterceptor1, requiresAuthentication, hp]
    · simp [getHeader_withTenant]

/-- C2 witness: instantiation of the amended theorem at a concrete
"/public"-containing url for the main pipeline and at /health for the
part_001 variant. -/
theorem c2_public_substring_never_authorized_witness :
    (∃ c, (requestInterceptor (some "acme.myshopify.com") (Except.ok "tok_xyz")
        cfgPublic).result = Except.ok c ∧ getHeader c.headers "Authorization" = none) ∧
    (∃ c, (requestInterceptor1 env3 (Except.ok "tok_xyz")
        ApiService.healthCheck).result = Except.ok c ∧
        getHeader c.headers "Authorization" = none) := by
  constructor
  · obtain ⟨c, h1, h2⟩ :=
      (c2_public_substring_never_authorized (some "acme.myshopify.com") env3
        (Except.ok "tok_xyz") cfgPublic).1 (by decide)
    exact ⟨c, h1, h2.trans rfl⟩
  · obtain ⟨c, h1, h2⟩ :=
      (c2_public_substring_never_authorized (some "acme.myshopify.com") env3
        (Except.ok "tok_xyz") ApiService.healthCheck).2 (by decide)
    exact ⟨c, h1, h2.trans rfl⟩

/-- C3 counterexample: the claim states that bridge-handle construction is
attempted at most once per process even when the first attempt fails,
because a failed result is cached as an "unavailable" sentinel.  In the
part_001 getInstance a thrown construction sets the cached field back to
null, so with a fully configured environment whose createApp always throws,
each of two successive getInstance calls invokes createApp once: two
construction attempts in one process. -/
theorem c3_counterexample_failed_construction_retried :
    (AppBridgeService.getInstance1 env3 none).2.2 = 1 ∧
    (AppBridgeService.getInstance1 env3
        ((AppBridgeService.getInstance1 env3 none).2.1)).2.2 = 1 ∧
    ¬((AppBridgeService.getInstance1 env3 none).2.2 +
        (AppBridgeService.getInstance1 env3
          ((AppBridgeService.getInstance1 env3 none).2.1)).2.2 ≤ 1) :=
  ⟨by decide, by decide, by decide⟩

/-- C3 amended: construction is memoized only on success.  Once a handle is
cached, getInstance returns it and never re-attempts construction (zero
createApp invocations); but a failed call caches nothing — the instance
field is still null afterwards, so the construction path runs again on the
next call. -/
theorem c3_success_memoized_failure_not_cached (env : Env) (app : BridgeHandle) :
    AppBridgeService.getInstance1 env (some app) = (some app, some app, 0) ∧
    ((AppBridgeService.getInstance1 env none).1 = none →
      (AppBridgeService.getInstance1 env none).2.1 = none) := by
  refine ⟨rfl, ?_⟩
  intro h
  by_cases hk : jsTruthy env.apiKey
  · by_cases hsh : jsTruthy (ShopifyAppConfig.getShopDomain1 env)
    · by_cases hh : (!(jsTruthy (ShopifyAppConfig.getHost1 env)) && env.prod) = true
      · simp [AppBridgeService.getInstance1, hk, hsh, hh]
      · rcases hc : env.createApp (env.apiKey.getD "") (ShopifyAppConfig.getHost1 env)
          with e | app2
        · simp [AppBridgeService.getInstance1, hk, hsh, hh, hc]
        · exfalso
          simp [AppBridgeService.getInstance1, hk, hsh, hh, hc] at h
    · simp [AppBridgeService.getInstance1, hk, hsh]
  · simp [AppBridgeService.getInstance1, hk]

/-- C3 witness: the amended theorem applied at the throwing-constructor
environment and a concrete cached handle. -/
theorem c3_success_memoized_failure_not_cached_witness :
    AppBridgeService.getInstance1 env3 (some handle0) = (some handle0, some handle0, 0) ∧
    (AppBridgeService.getInstance1 env3 none).2.1 = none :=
  ⟨(c3_success_memoized_failure_not_cached env3 handle0).1,
    (c3_success_memoized_failure_not_cached env3 handle0).2 (by decide)⟩

/-- C4: the claim states getInstance never raises and converts every
missing-input or construction failure into the null "unavailable" result.
The code violates this: with a fresh (null) instance field, getInstance
throws the logContext TypeError even in a fully configured environment
(shop, host and application key all present), because line 58 calls a
method that does not exist on ShopifyAppConfig. -/
theorem c4_getinstance_raises_typeerror :
    AppBridgeService.getInstance env0 none =
      (Except.error (JsError.typeError "ShopifyAppConfig.logContext is not a function"),
        none) ∧
    env0.nav.shop = some "acme.myshopify.com" ∧
    env0.nav.host = some "abc123" ∧
    jsTruthy env0.apiKey = true :=
  ⟨rfl, rfl, rfl, rfl⟩

/-- C5: with the availability-favoring policy (the main pipeline, and the
part_001 pipeline in development) a failing token exchange never makes the
outbound stage raise — the request proceeds without the Authorization
header, i.e. the produced config's Authorization header is exactly the
incoming one; with the strictness-favoring policy (the part_001 pipeline in
production) a failing exchange on an authenticated path always makes the
outbound stage raise the original exchange error, aborting the request. -/
theorem c5_token_failure_policy (shop : Option String) (env : Env) (e : JsError)
    (cfg : Config) :
    (∃ c, (requestInterceptor shop (Except.error e) cfg).result = Except.ok c ∧
      getHeader c.headers "Authorization" = getHeader cfg.headers "Authorization") ∧
    (env.prod = false →
      ∃ c, (requestInterceptor1 env (Except.error e) cfg).result = Except.ok c ∧
        getHeader c.headers "Authorization" = getHeader cfg.headers "Authorization") ∧
    (env.prod = true → requiresAuthentication cfg = true →
      (requestInterceptor1 env (Except.error e) cfg).result = Except.error e) := by
  refine ⟨?_, ?_, ?_⟩
  · refine ⟨withTenant shop cfg, ?_, ?_⟩
    · by_cases hg : (jsTruthy shop && !(jsIncludes cfg.url "/public")) = true <;>
        simp [requestInterceptor, hg]
    · simp [getHeader_withTenant]
  · intro hp
    refine ⟨withTenant (ShopifyAppConfig.getShopDomain1 env) cfg, ?_, ?_⟩
    · by_cases ha : requiresAuthentication cfg = true <;>
        simp [requestInterceptor1, ha, hp]
    · simp [getHeader_withTenant]
  · intro hp ha
    simp [requestInterceptor1, ha, hp]

/-- C5 witness: the policy theorem applied at GET /store with a concrete
failing exchange, in the availability configurations (where the request
goes out with no Authorization header) and in the strict production
configuration (where the exchange error propagates). -/
theorem c5_token_failure_policy_witness :
    (∃ c, (requestInterceptor (some "acme.myshopify.com") (Except.error errX)
        ApiService.getStore).result = Except.ok c ∧
        getHeader c.headers "Authorization" = none) ∧
    (∃ c, (requestInterceptor1 envDev (Except.error errX)
        ApiService.getStore).result = Except.ok c ∧
        getHeader c.headers "Authorization" = none) ∧
    (requestInterceptor1 env3 (Except.error errX) ApiService.getStore).result =
      Except.error errX := by
  refine ⟨?_, ?_,
    (c5_token_failure_policy (some "x") env3 errX ApiService.getStore).2.2 rfl (by decide)⟩
  · obtain ⟨c, h1, h2⟩ :=
      (c5_token_failure_policy (some "acme.myshopify.com") env3 errX ApiService.getStore).1
    exact ⟨c, h1, h2.trans rfl⟩
  · obtain ⟨c, h1, h2⟩ :=
      (c5_token_failure_policy (some "x") envDev errX ApiService.getStore).2.1 rfl
    exact ⟨c, h1, h2.trans rfl⟩

/-- C6: the inbound error stage re-raises the original error object
unchanged in every classification branch — no failure is swallowed, no
default substituted — and the success stage passes the response through
unchanged; in particular an error carrying an HTTP 404 response surfaces to
the caller still carrying status 404. -/
theorem c6_inbound_rethrows_original :
    (∀ e : AxiosError, responseErrorStage e = Except.error e) ∧
    (∀ r : HttpResponse, responseSuccessStage r = r) ∧
    (∃ e2, responseErrorStage err404 = Except.error e2 ∧
      e2.response.map HttpResponse.status = some 404) := by
  refine ⟨?_, fun _ => rfl, ⟨err404, rfl, rfl⟩⟩
  intro e
  unfold responseErrorStage
  split
  · rfl
  · split <;> rfl

/-- C7: the outbound stage sets the tenant header X-Shopify-Shop-Domain to
the shop navigation parameter exactly when that parameter is present and
non-empty (truthy); when it is absent the tenant header of the outgoing
config is whatever the incoming config carried — nothing is attached. -/
theorem c7_tenant_header_exactly_when_shop_present (shop : Option String)
    (tokRes : Except JsError String) (cfg : Config) :
    tenantOf (requestInterceptor shop tokRes cfg) =
      if jsTruthy shop then shop
      else getHeader cfg.headers "X-Shopify-Shop-Domain" := by
  by_cases hs : jsTruthy shop = true
  · by_cases hp : jsIncludes cfg.url "/public" = true
    · simp [requestInterceptor, tenantOf, stageConfig, hs, hp, getHeader_withTenant]
    · rcases tokRes with e | t <;>
        simp [requestInterceptor, tenantOf, stageConfig, hs, hp,
          getHeader_setHeader, getHeader_withTenant]
  · simp [requestInterceptor, tenantOf, stageConfig, hs, getHeader_withTenant]

/-- C8: getTrend with no argument requests /dashboard/trend?days=30,
getTrend 7 requests /dashboard/trend?days=7, and in general the days value
is interpolated into the url without validation. -/
theorem c8_trend_urls :
    (ApiService.getTrend : Config).url = "/dashboard/trend?days=30" ∧
    (ApiService.getTrend 7).url = "/dashboard/trend?days=7" ∧
    (∀ d : Int, (ApiService.getTrend d).url = "/dashboard/trend?days=" ++ toString d) ∧
    (∀ d : Int, (ApiService.getTrend d).method = "get") :=
  ⟨by decide, by decide, fun _ => rfl, fun _ => rfl⟩

/-- C9: the outbound stage only changes the headers mapping — whenever it
produces a config, that config has the same method, url and body as the
config it received, in the main pipeline and in the part_001 variant. -/
theorem c9_outbound_preserves_method_url_body (shop : Option String) (env : Env)
    (tokRes : Except JsError String) (cfg : Config) :
    (stageConfig (requestInterceptor shop tokRes cfg)).map
        (fun c => (c.method, c.url, c.body)) =
      (stageConfig (requestInterceptor shop tokRes cfg)).map
        (fun _ => (cfg.method, cfg.url, cfg.body)) ∧
    (stageConfig (requestInterceptor1 env tokRes cfg)).map
        (fun c => (c.method, c.url, c.body)) =
      (stageConfig (requestInterceptor1 env tokRes cfg)).map
        (fun _ => (cfg.method, cfg.url, cfg.body)) := by
  constructor
  · by_cases hg : (jsTruthy shop && !(jsIncludes cfg.url "/public")) = true
    · rcases tokRes with e | t <;>
        simp [requestInterceptor, stageConfig, hg,
          withTenant_method, withTenant_url, withTenant_body]
    · simp [requestInterceptor, stageConfig, hg,
        withTenant_method, withTenant_url, withTenant_body]
  · by_cases ha : requiresAuthentication cfg = true
    · rcases tokRes with e | t
      · by_cases hprod : env.prod = true <;>
          simp [requestInterceptor1, stageConfig, ha, hprod,
            withTenant_method, withTenant_url, withTenant_body]
      · simp [requestInterceptor1, stageConfig, ha,
          withTenant_method, withTenant_url, withTenant_body]
    · simp [requestInterceptor1, stageConfig, ha,
        withTenant_method, withTenant_url, withTenant_body]

/-- C10: the public-path test is substring containment anywhere in the url,
not path equality: whenever the url contains "/public" the main outbound
stage skips token acquisition entirely and leaves the Authorization header
exactly as it came in, and the part_001 variant likewise treats the request
as public. -/
theorem c10_public_substring_containment (shop : Option String) (env : Env)
    (tokRes : Except JsError String) (cfg : Config)
    (hp : jsIncludes cfg.url "/public" = true) :
    (requestInterceptor shop tokRes cfg).tokenAttempted = false ∧
    authOf (requestInterceptor shop tokRes cfg) =
      getHeader cfg.headers "Authorization" ∧
    (requestInterceptor1 env tokRes cfg).tokenAttempted = false := by
  refine ⟨?_, ?_, ?_⟩
  · simp [requestInterceptor, hp]
  · simp [requestInterceptor, hp, authOf, stageConfig, getHeader_withTenant]
  · simp [requestInterceptor1, requiresAuthentication, hp]

/-- C10 witness: /publications contains "/public" as a substring, so even
with a shop present and a succeeding exchange no token is acquired and no
Authorization header is attached, in either pipeline variant. -/
theorem c10_public_substring_containment_witness :
    (requestInterceptor (some "acme.myshopify.com") (Except.ok "tok_xyz")
        cfgPublications).tokenAttempted = false ∧
    authOf (requestInterceptor (some "acme.myshopify.com") (Except.ok "tok_xyz")
        cfgPublications) = none ∧
    (requestInterceptor1 env3 (Except.ok "tok_xyz") cfgPublications).tokenAttempted =
      false := by
  obtain ⟨h1, h2, h3⟩ :=
    c10_public_substring_containment (some "acme.myshopify.com") env3
      (Except.ok "tok_xyz") cfgPublications (by decide)
  exact ⟨h1, h2.trans rfl, h3⟩
